import Mathlib

/-!
# Expression context of z3javascript (src/Context.js)

A shallow embedding of the class `Context`: every method becomes a Lean
function in the monad `JS`, which threads the list of calls issued to the
native engine so far and can fail with a JavaScript error.  The engine
object `Z3` imported from `./Z3Loader` is a parameter of every method.
-/

namespace Z3JS

/-! ## Values crossing the engine boundary -/

/-- Scalar JavaScript values that the class passes to, or receives from, the engine. -/
inductive Val where
  | undefined
  | bool (b : Bool)
  | num (n : Int)
  | str (s : String)
  | handle (p : Nat)
  deriving DecidableEq, Repr

/-- One actual argument of an engine call: a scalar, or an array of raw handles. -/
inductive Arg where
  | val (v : Val)
  | array (vs : List Val)
  deriving DecidableEq, Repr

/-- A function value bound by the loader, identified by its property name on `Z3`. -/
abbrev EngineFn := String

/-- One call into the engine: the function and its actual arguments, in order. -/
structure Call where
  fn : EngineFn
  args : List Arg
  deriving DecidableEq, Repr

/-- The native engine: what it returns to a call, given the calls issued before it. -/
structure Engine where
  answer : List Call → Call → Val

/-- Errors the JavaScript code itself can raise. -/
inductive JSError where
  | referenceError (name : String)
  | typeError (msg : String)
  deriving DecidableEq, Repr

/-- Computations of the class: they extend the engine call log and may throw. -/
abbrev JS := StateT (List Call) (Except JSError)

/-- Calling `Z3.fn(args...)`: the call is appended to the log and the engine answers. -/
def Engine.invoke (Z3 : Engine) (fn : EngineFn) (args : List Arg) : JS Val :=
  fun log => Except.ok (Z3.answer log ⟨fn, args⟩, log ++ [⟨fn, args⟩])

/-! ## Collaborators -/

/-- The expression value: a context handle paired with an AST handle. -/
structure Expr where
  ctx : Val
  ast : Val
  deriving DecidableEq, Repr

/-- Modelled from the spec: the constructor of `Expr` (`./Expr` is not among the
sources).  It pairs the context handle with a raw handle; as a JavaScript
constructor of two parameters it binds its first two actuals, a missing actual
is `undefined`, and further actuals are not bound to any parameter. -/
def Expr.new (actuals : List Val) : Expr :=
  ⟨actuals.getD 0 Val.undefined, actuals.getD 1 Val.undefined⟩

/-- Modelled from the spec: `Z3Utils.astArray` (`./Z3Utils` is not among the
sources), the order-preserving conversion of a list of expression values into
the array of their raw handles. -/
def Z3Utils.astArray (args : List Expr) : List Val :=
  args.map Expr.ast

/-! ## The class -/

/-- An instance of `Context`: its only own property is `ctx`. -/
structure Context where
  ctx : Val
  deriving DecidableEq, Repr

/-- Reading `this.ast` on an instance: no method assigns such a property and
the prototype has none, so the read yields `undefined`. -/
def Context.ast (_self : Context) : Val := Val.undefined

/-- Lines 13-21: `constructor()`. -/
def Context.construct (Z3 : Engine) : JS Context := do
  let config ← Z3.invoke "Z3_mk_config" []
  let _ ← Z3.invoke "Z3_set_param_value" [.val config, .val (.str "model"), .val (.str "true")]
  let _ ← Z3.invoke "Z3_set_param_value" [.val config, .val (.str "MODEL"), .val (.str "true")]
  let _ ← Z3.invoke "Z3_set_param_value"
    [.val config, .val (.str "well_sorted_check"), .val (.str "true")]
  let ctx ← Z3.invoke "Z3_mk_context_rc" [.val config]
  let _ ← Z3.invoke "Z3_del_config" [.val config]
  pure ⟨ctx⟩

/-- Lines 23-26: `_build(func, ...args)`. -/
def Context._build (Z3 : Engine) (self : Context) (func : EngineFn) (args : List Expr) :
    JS Expr := do
  let fnResult ← Z3.invoke func (([self.ctx] ++ Z3Utils.astArray args).map Arg.val)
  pure (Expr.new [self.ctx, fnResult])

/-- Lines 32-34: `_buildVarNoArgs(func, args)`. -/
def Context._buildVarNoArgs (Z3 : Engine) (self : Context) (func : EngineFn)
    (args : List Expr) : JS Expr := do
  let r ← Z3.invoke func
    [.val self.ctx, .val (.num args.length), .array (Z3Utils.astArray args)]
  pure (Expr.new [self.ctx, r])

/-- Lines 28-30: `_buildVar(func, ...args)`; the rest parameter is the list of operands. -/
def Context._buildVar (Z3 : Engine) (self : Context) (func : EngineFn) (args : List Expr) :
    JS Expr :=
  Context._buildVarNoArgs Z3 self func args

/-- Lines 36-38: `destroy()`. -/
def Context.destroy (Z3 : Engine) (self : Context) : JS Unit := do
  let _ ← Z3.invoke "Z3_del_context" [.val self.ctx]
  pure ()

/-- Lines 104-106: `mkStringSymbol(val)`. -/
def Context.mkStringSymbol (Z3 : Engine) (self : Context) (val : Val) : JS Val :=
  Z3.invoke "Z3_mk_string_symbol" [.val self.ctx, .val val]

/-- Lines 108-110: `mkConst(symb, sort)`. -/
def Context.mkConst (Z3 : Engine) (self : Context) (symb sort : Val) : JS Expr := do
  let r ← Z3.invoke "Z3_mk_const" [.val self.ctx, .val symb, .val sort]
  pure (Expr.new [self.ctx, r])

/-- Lines 92-94: `mkBoolSort()`. -/
def Context.mkBoolSort (Z3 : Engine) (self : Context) : JS Val :=
  Z3.invoke "Z3_mk_bool_sort" [.val self.ctx]

/-- Lines 96-98: `mkIntSort()`. -/
def Context.mkIntSort (Z3 : Engine) (self : Context) : JS Val :=
  Z3.invoke "Z3_mk_int_sort" [.val self.ctx]

/-- Lines 170-172: `mkRealSort()`. -/
def Context.mkRealSort (Z3 : Engine) (self : Context) : JS Val :=
  Z3.invoke "Z3_mk_real_sort" [.val self.ctx]

/-- Lines 40-42: `mkVar(name, sort)`; the symbol is made before the constant. -/
def Context.mkVar (Z3 : Engine) (self : Context) (name sort : Val) : JS Expr := do
  let symb ← Context.mkStringSymbol Z3 self name
  let r ← Z3.invoke "Z3_mk_const" [.val self.ctx, .val symb, .val sort]
  pure (Expr.new [self.ctx, r])

/-- Lines 44-46: `mkIntVar(name)`. -/
def Context.mkIntVar (Z3 : Engine) (self : Context) (name : Val) : JS Expr := do
  let sort ← Context.mkIntSort Z3 self
  Context.mkVar Z3 self name sort

/-- Lines 48-50: `mkRealVar(name)`. -/
def Context.mkRealVar (Z3 : Engine) (self : Context) (name : Val) : JS Expr := do
  let sort ← Context.mkRealSort Z3 self
  Context.mkVar Z3 self name sort

/-- Lines 52-54: `mkBoolVar(name)`. -/
def Context.mkBoolVar (Z3 : Engine) (self : Context) (name : Val) : JS Expr := do
  let sort ← Context.mkBoolSort Z3 self
  Context.mkVar Z3 self name sort

/-- Lines 76-78: `mkSeqConcat(strings)`. -/
def Context.mkSeqConcat (Z3 : Engine) (self : Context) (strings : List Expr) : JS Expr :=
  Context._buildVarNoArgs Z3 self "Z3_mk_seq_concat" strings

/-- Lines 116-118: `mkTrue()`. -/
def Context.mkTrue (Z3 : Engine) (self : Context) : JS Expr := do
  let r ← Z3.invoke "Z3_mk_true" [.val self.ctx]
  pure (Expr.new [self.ctx, r])

/-- Lines 124-126: `mkEq(left, right)`. -/
def Context.mkEq (Z3 : Engine) (self : Context) (left right : Expr) : JS Expr :=
  Context._build Z3 self "Z3_mk_eq" [left, right]

/-- Lines 158-160: `mkAnd(left, right)`. -/
def Context.mkAnd (Z3 : Engine) (self : Context) (left right : Expr) : JS Expr :=
  Context._buildVar Z3 self "Z3_mk_and" [left, right]

/-- Lines 162-164: `mkOr(left, right)`. -/
def Context.mkOr (Z3 : Engine) (self : Context) (left right : Expr) : JS Expr :=
  Context._buildVar Z3 self "Z3_mk_or" [left, right]

/-- Lines 178-180: `mkAdd(left, right)`. -/
def Context.mkAdd (Z3 : Engine) (self : Context) (left right : Expr) : JS Expr :=
  Context._buildVar Z3 self "Z3_mk_add" [left, right]

/-- Lines 182-184: `mkMul(left, right)`. -/
def Context.mkMul (Z3 : Engine) (self : Context) (left right : Expr) : JS Expr :=
  Context._buildVar Z3 self "Z3_mk_mul" [left, right]

/-- Lines 186-188: `mkSub(left, right)`. -/
def Context.mkSub (Z3 : Engine) (self : Context) (left right : Expr) : JS Expr :=
  Context._buildVar Z3 self "Z3_mk_sub" [left, right]

/-- Lines 250-252: `mkInt(v, sort)`. -/
def Context.mkInt (Z3 : Engine) (self : Context) (v sort : Val) : JS Expr := do
  let r ← Z3.invoke "Z3_mk_int" [.val self.ctx, .val v, .val sort]
  pure (Expr.new [self.ctx, r])

/-- Lines 266-268: `toString(ast)`; the body reads `this.ast`, not its parameter. -/
def Context.toString (Z3 : Engine) (self : Context) (_ast : Val) : JS Val :=
  Z3.invoke "Z3_ast_to_string" [.val self.ctx, .val self.ast]

/-- Lines 282-284: `mkConstArray(sort, v)`; `new Expr` receives three actuals. -/
def Context.mkConstArray (Z3 : Engine) (self : Context) (sort : Val) (v : Expr) : JS Expr := do
  let r ← Z3.invoke "Z3_mk_const_array" [.val self.ctx, .val sort, .val v.ast]
  pure (Expr.new [self.ctx, self.ctx, r])


/-! ## The two definitions of `mkNot` -/

/-- Resolving a name read by a method body against the parameters bound at the
call.  The module itself binds only `Z3`, `Z3Utils`, `Expr`, `Model` and
`Context`, so an operand name that is not a parameter does not resolve. -/
def lookupName (scope : List (String × Expr)) (name : String) : Except JSError Expr :=
  match scope.lookup name with
  | some v => Except.ok v
  | none => Except.error (JSError.referenceError name)

/-- Lines 134-136: the first `mkNot()`, declared without parameters, so the
actual of a call is bound to no name. -/
def Context.mkNot_line134 (Z3 : Engine) (self : Context) (_actual : Expr) : JS Expr := do
  let arg ← lookupName [] "arg"
  Context._build Z3 self "Z3_mk_not" [arg]

/-- Lines 138-140: the second `mkNot(arg)`. -/
def Context.mkNot_line138 (Z3 : Engine) (self : Context) (actual : Expr) : JS Expr := do
  let arg ← lookupName [("arg", actual)] "arg"
  Context._build Z3 self "Z3_mk_not" [arg]

/-- The definitions of `mkNot` in the class body, in source order. -/
def Context.mkNotDefinitions : List (Engine → Context → Expr → JS Expr) :=
  [Context.mkNot_line134, Context.mkNot_line138]

/-- The property `mkNot` of the prototype: a class body installs its methods in
source order, so the last definition of a name is the one an instance sees. -/
def Context.mkNot (Z3 : Engine) (self : Context) (arg : Expr) : JS Expr :=
  match Context.mkNotDefinitions.getLast? with
  | some method => method Z3 self arg
  | none => throw (JSError.typeError "mkNot is not a function")

/-! ## A concrete engine for evaluating the class -/

/-- An engine that renders the handle 7 as "x", any other operand of
`Z3_ast_to_string` as "null", and answers every other call with a fresh
handle numbered from 100. -/
def demoEngine : Engine where
  answer := fun log c =>
    if c.fn = "Z3_ast_to_string" then
      match c.args with
      | [_, Arg.val (Val.handle 7)] => Val.str "x"
      | _ => Val.str "null"
    else Val.handle (100 + log.length)

/-- Equality of results is decidable when equality of errors and values is. -/
instance instDecidableEqExcept {ε α : Type} [DecidableEq ε] [DecidableEq α] :
    DecidableEq (Except ε α)
  | Except.ok a, Except.ok b =>
    if h : a = b then isTrue (by rw [h]) else isFalse (fun h2 => h (Except.ok.inj h2))
  | Except.error a, Except.error b =>
    if h : a = b then isTrue (by rw [h]) else isFalse (fun h2 => h (Except.error.inj h2))
  | Except.ok _, Except.error _ => isFalse (fun h => Except.noConfusion h)
  | Except.error _, Except.ok _ => isFalse (fun h => Except.noConfusion h)

/-! ## The adapters -/

/-- C1: from any call log, `_build(f, e1, ..., en)` issues exactly one engine
call, `f(ctx, e1.ast, ..., en.ast)` with the handles in the order given, and
returns the expression value pairing the instance's `ctx` with the value that
call returned. -/
theorem build_invokes_once_and_wraps (Z3 : Engine) (self : Context) (f : EngineFn)
    (es : List Expr) (log : List Call) :
    (Context._build Z3 self f es).run log =
      Except.ok
        (⟨self.ctx, Z3.answer log ⟨f, (self.ctx :: es.map Expr.ast).map Arg.val⟩⟩,
          log ++ [⟨f, (self.ctx :: es.map Expr.ast).map Arg.val⟩]) := by
  rfl

/-- C2: `_buildVar(f, a, b)` is the same computation as `_buildVarNoArgs(f, [a, b])`,
so `mkAnd(a, b)` and `mkOr(a, b)` are `_buildVarNoArgs` applied to `Z3_mk_and`
and `Z3_mk_or` with `[a, b]`; from any log both issue the single call
`f(ctx, 2, [a.ast, b.ast])` and wrap its result. -/
theorem buildVar_eq_buildVarNoArgs (Z3 : Engine) (self : Context) (f : EngineFn)
    (a b : Expr) :
    Context._buildVar Z3 self f [a, b] = Context._buildVarNoArgs Z3 self f [a, b] ∧
    Context.mkAnd Z3 self a b = Context._buildVarNoArgs Z3 self "Z3_mk_and" [a, b] ∧
    Context.mkOr Z3 self a b = Context._buildVarNoArgs Z3 self "Z3_mk_or" [a, b] ∧
    ∀ log : List Call,
      (Context._buildVar Z3 self f [a, b]).run log =
        Except.ok
          (⟨self.ctx,
            Z3.answer log ⟨f, [Arg.val self.ctx, Arg.val (Val.num 2), Arg.array [a.ast, b.ast]]⟩⟩,
            log ++ [⟨f, [Arg.val self.ctx, Arg.val (Val.num 2), Arg.array [a.ast, b.ast]]⟩]) :=
  ⟨rfl, rfl, rfl, fun _ => rfl⟩

/-- C3: from any log, `mkSeqConcat(strings)` issues exactly one engine call,
`Z3_mk_seq_concat(ctx, n, handles)`, where `handles` lists the raw handles of
`strings` position by position and `n` is the length of that array, and it
returns the expression value pairing `ctx` with the returned handle. -/
theorem mkSeqConcat_count_prefixed (Z3 : Engine) (self : Context) (strings : List Expr)
    (log : List Call) :
    (Context.mkSeqConcat Z3 self strings).run log =
      Except.ok
        (⟨self.ctx, Z3.answer log ⟨"Z3_mk_seq_concat",
            [Arg.val self.ctx, Arg.val (Val.num (Z3Utils.astArray strings).length),
              Arg.array (Z3Utils.astArray strings)]⟩⟩,
          log ++ [⟨"Z3_mk_seq_concat",
            [Arg.val self.ctx, Arg.val (Val.num (Z3Utils.astArray strings).length),
              Arg.array (Z3Utils.astArray strings)]⟩]) ∧
    (Z3Utils.astArray strings).length = strings.length ∧
    ∀ i : Nat, (Z3Utils.astArray strings)[i]? = (strings[i]?).map Expr.ast := by
  refine ⟨?_, ?_, ?_⟩
  · have hlen : (Z3Utils.astArray strings).length = strings.length := by
      simp [Z3Utils.astArray]
    rw [hlen]
    rfl
  · simp [Z3Utils.astArray]
  · intro i
    simp [Z3Utils.astArray]

/-! ## Construction and teardown -/

/-- C4: from any log, the constructor issues exactly six engine calls, in this
order: `Z3_mk_config()`, then on the returned configuration the options
("model", "true"), ("MODEL", "true") and ("well_sorted_check", "true"), then
`Z3_mk_context_rc(config)`, then `Z3_del_config(config)`.  The instance holds
the handle returned by `Z3_mk_context_rc` as its `ctx`, and exactly one of the
issued calls is `Z3_del_config`. -/
theorem construct_call_sequence (Z3 : Engine) (log : List Call) :
    let mk : Call := ⟨"Z3_mk_config", []⟩
    let config : Val := Z3.answer log mk
    let options : List Call :=
      [⟨"Z3_set_param_value", [Arg.val config, Arg.val (Val.str "model"), Arg.val (Val.str "true")]⟩,
       ⟨"Z3_set_param_value", [Arg.val config, Arg.val (Val.str "MODEL"), Arg.val (Val.str "true")]⟩,
       ⟨"Z3_set_param_value",
          [Arg.val config, Arg.val (Val.str "well_sorted_check"), Arg.val (Val.str "true")]⟩]
    let mkContext : Call := ⟨"Z3_mk_context_rc", [Arg.val config]⟩
    let del : Call := ⟨"Z3_del_config", [Arg.val config]⟩
    let issued : List Call := mk :: options ++ [mkContext, del]
    (Context.construct Z3).run log =
        Except.ok (⟨Z3.answer (log ++ mk :: options) mkContext⟩, log ++ issued) ∧
      (issued.filter (fun c => c.fn = "Z3_del_config")).length = 1 := by
  intro mk config options mkContext del issued
  refine ⟨?_, ?_⟩
  · simp [Context.construct, Engine.invoke, StateT.run, bind, StateT.bind, Except.bind,
      pure, StateT.pure, Except.pure, mk, config, options, mkContext, del, issued]
  · simp [mk, options, mkContext, del, issued]

/-- Teardown issues `Z3_del_context(ctx)` and changes nothing else: whatever
method runs next on the instance runs exactly as it would from the log extended
by that one call. -/
theorem destroy_then (Z3 : Engine) (self : Context) {α : Type} (method : Context → JS α)
    (log : List Call) :
    (do Context.destroy Z3 self; method self).run log =
      (method self).run (log ++ [⟨"Z3_del_context", [Arg.val self.ctx]⟩]) := by
  rfl

/-- C5, as stated, fails: on the demo engine, constructing an instance, calling
`destroy()` and then `mkTrue()` raises no error; the engine is asked for
`Z3_mk_true` on the released handle 104 after `Z3_del_context(104)`, and the
call returns an expression value built from that handle. -/
theorem builder_after_destroy_not_rejected :
    (do
        let c ← Context.construct demoEngine
        Context.destroy demoEngine c
        Context.mkTrue demoEngine c).run [] =
      Except.ok
        (⟨Val.handle 104, Val.handle 107⟩,
          [⟨"Z3_mk_config", []⟩,
           ⟨"Z3_set_param_value",
              [Arg.val (Val.handle 100), Arg.val (Val.str "model"), Arg.val (Val.str "true")]⟩,
           ⟨"Z3_set_param_value",
              [Arg.val (Val.handle 100), Arg.val (Val.str "MODEL"), Arg.val (Val.str "true")]⟩,
           ⟨"Z3_set_param_value",
              [Arg.val (Val.handle 100), Arg.val (Val.str "well_sorted_check"),
                Arg.val (Val.str "true")]⟩,
           ⟨"Z3_mk_context_rc", [Arg.val (Val.handle 100)]⟩,
           ⟨"Z3_del_config", [Arg.val (Val.handle 100)]⟩,
           ⟨"Z3_del_context", [Arg.val (Val.handle 104)]⟩,
           ⟨"Z3_mk_true", [Arg.val (Val.handle 104)]⟩]) ∧
    ¬ ∃ err : JSError,
        (do
          let c ← Context.construct demoEngine
          Context.destroy demoEngine c
          Context.mkTrue demoEngine c).run [] = Except.error err := by
  refine ⟨by decide, ?_⟩
  rintro ⟨err, h⟩
  cases h

/-- C5, amended: the class keeps no record of teardown.  After `destroy()`, the
builders `mkTrue`, `mkInt`, `mkEq` and `mkAnd` raise no error: each issues its
engine call with the released context handle, exactly as before teardown, and
returns the expression value pairing that handle with the engine's result. -/
theorem builder_after_destroy_still_calls_engine (Z3 : Engine) (self : Context)
    (a b : Expr) (v sort : Val) (log : List Call) :
    let del : Call := ⟨"Z3_del_context", [Arg.val self.ctx]⟩
    let callTrue : Call := ⟨"Z3_mk_true", [Arg.val self.ctx]⟩
    let callInt : Call := ⟨"Z3_mk_int", [Arg.val self.ctx, Arg.val v, Arg.val sort]⟩
    let callEq : Call := ⟨"Z3_mk_eq", [Arg.val self.ctx, Arg.val a.ast, Arg.val b.ast]⟩
    let callAnd : Call :=
      ⟨"Z3_mk_and", [Arg.val self.ctx, Arg.val (Val.num 2), Arg.array [a.ast, b.ast]]⟩
    (do Context.destroy Z3 self; Context.mkTrue Z3 self).run log =
        Except.ok (⟨self.ctx, Z3.answer (log ++ [del]) callTrue⟩, log ++ [del, callTrue]) ∧
    (do Context.destroy Z3 self; Context.mkInt Z3 self v sort).run log =
        Except.ok (⟨self.ctx, Z3.answer (log ++ [del]) callInt⟩, log ++ [del, callInt]) ∧
    (do Context.destroy Z3 self; Context.mkEq Z3 self a b).run log =
        Except.ok (⟨self.ctx, Z3.answer (log ++ [del]) callEq⟩, log ++ [del, callEq]) ∧
    (do Context.destroy Z3 self; Context.mkAnd Z3 self a b).run log =
        Except.ok (⟨self.ctx, Z3.answer (log ++ [del]) callAnd⟩, log ++ [del, callAnd]) := by
  intro del callTrue callInt callEq callAnd
  refine ⟨?_, ?_, ?_, ?_⟩ <;>
    simp [Context.destroy, Context.mkTrue, Context.mkInt, Context.mkEq, Context.mkAnd,
      Context._build, Context._buildVar, Context._buildVarNoArgs, Z3Utils.astArray, Expr.new,
      Engine.invoke, StateT.run, bind, StateT.bind, Except.bind, pure, StateT.pure,
      Except.pure, del, callTrue, callInt, callEq, callAnd]

/-! ## Direct passthrough -/

/-- From any log, `mkConstArray(sort, v)` issues the single call
`Z3_mk_const_array(ctx, sort, v.ast)` and hands `new Expr` the three actuals
`(ctx, ctx, h)`, where `h` is the handle that call returned; the expression
value it returns therefore has the context handle as its `ast`. -/
theorem mkConstArray_run (Z3 : Engine) (self : Context) (sort : Val) (v : Expr)
    (log : List Call) :
    (Context.mkConstArray Z3 self sort v).run log =
      Except.ok
        (Expr.new [self.ctx, self.ctx,
            Z3.answer log ⟨"Z3_mk_const_array", [Arg.val self.ctx, Arg.val sort, Arg.val v.ast]⟩],
          log ++ [⟨"Z3_mk_const_array", [Arg.val self.ctx, Arg.val sort, Arg.val v.ast]⟩]) ∧
    (Expr.new [self.ctx, self.ctx,
        Z3.answer log ⟨"Z3_mk_const_array", [Arg.val self.ctx, Arg.val sort, Arg.val v.ast]⟩]).ast =
      self.ctx :=
  ⟨rfl, rfl⟩

/-- C6 at a concrete input: on the instance with context handle 1, with sort
handle 2 and an operand whose AST handle is 3, the engine answers
`Z3_mk_const_array(1, 2, 3)` with handle 100, yet the returned expression value
wraps handle 1, the context handle, and differs from the pair (1, 100). -/
theorem mkConstArray_wraps_context_handle :
    (Context.mkConstArray demoEngine ⟨Val.handle 1⟩ (Val.handle 2)
        ⟨Val.handle 1, Val.handle 3⟩).run [] =
      Except.ok
        (⟨Val.handle 1, Val.handle 1⟩,
          [⟨"Z3_mk_const_array",
              [Arg.val (Val.handle 1), Arg.val (Val.handle 2), Arg.val (Val.handle 3)]⟩]) ∧
    demoEngine.answer []
        ⟨"Z3_mk_const_array",
          [Arg.val (Val.handle 1), Arg.val (Val.handle 2), Arg.val (Val.handle 3)]⟩ =
      Val.handle 100 ∧
    (Context.mkConstArray demoEngine ⟨Val.handle 1⟩ (Val.handle 2)
        ⟨Val.handle 1, Val.handle 3⟩).run [] ≠
      Except.ok
        (⟨Val.handle 1, Val.handle 100⟩,
          [⟨"Z3_mk_const_array",
              [Arg.val (Val.handle 1), Arg.val (Val.handle 2), Arg.val (Val.handle 3)]⟩]) := by
  decide

/-- From any log, `toString(ast)` issues the single call
`Z3_ast_to_string(ctx, undefined)` whatever its argument is, and returns the
engine's text unwrapped; two calls from the same log with different arguments
are indistinguishable. -/
theorem toString_run (Z3 : Engine) (self : Context) (a b : Val) (log : List Call) :
    (Context.toString Z3 self a).run log =
      Except.ok
        (Z3.answer log ⟨"Z3_ast_to_string", [Arg.val self.ctx, Arg.val Val.undefined]⟩,
          log ++ [⟨"Z3_ast_to_string", [Arg.val self.ctx, Arg.val Val.undefined]⟩]) ∧
    Context.toString Z3 self a = Context.toString Z3 self b :=
  ⟨rfl, rfl⟩

/-- C7 at a concrete input: on the instance with context handle 1,
`toString(7)` asks the engine for `Z3_ast_to_string(1, undefined)` and returns
"null", although the engine renders `Z3_ast_to_string(1, 7)` as "x"; the
outcome differs from the call `(ctx, a)` with the text the engine has for it. -/
theorem toString_ignores_its_argument :
    (Context.toString demoEngine ⟨Val.handle 1⟩ (Val.handle 7)).run [] =
      Except.ok
        (Val.str "null",
          [⟨"Z3_ast_to_string", [Arg.val (Val.handle 1), Arg.val Val.undefined]⟩]) ∧
    demoEngine.answer []
        ⟨"Z3_ast_to_string", [Arg.val (Val.handle 1), Arg.val (Val.handle 7)]⟩ =
      Val.str "x" ∧
    (Context.toString demoEngine ⟨Val.handle 1⟩ (Val.handle 7)).run [] ≠
      Except.ok
        (Val.str "x",
          [⟨"Z3_ast_to_string", [Arg.val (Val.handle 1), Arg.val (Val.handle 7)]⟩]) := by
  decide

/-! ## Arithmetic and negation -/

/-- C8, as stated, fails: on the instance with context handle 1 and operands
with AST handles 2 and 3, `mkSub` does not issue the fixed-arity call
`Z3_mk_sub(1, 2, 3)`; the one call it issues is `Z3_mk_sub(1, 2, [2, 3])`,
the count followed by the handle array. -/
theorem mkSub_not_fixed_arity :
    (Context.mkSub demoEngine ⟨Val.handle 1⟩ ⟨Val.handle 1, Val.handle 2⟩
        ⟨Val.handle 1, Val.handle 3⟩).run [] ≠
      Except.ok
        (⟨Val.handle 1, Val.handle 100⟩,
          [⟨"Z3_mk_sub",
              [Arg.val (Val.handle 1), Arg.val (Val.handle 2), Arg.val (Val.handle 3)]⟩]) ∧
    (Context.mkSub demoEngine ⟨Val.handle 1⟩ ⟨Val.handle 1, Val.handle 2⟩
        ⟨Val.handle 1, Val.handle 3⟩).run [] =
      Except.ok
        (⟨Val.handle 1, Val.handle 100⟩,
          [⟨"Z3_mk_sub",
              [Arg.val (Val.handle 1), Arg.val (Val.num 2),
                Arg.array [Val.handle 2, Val.handle 3]]⟩]) := by
  decide

/-- C8, amended: subtraction uses the same count-array convention as addition
and multiplication.  From any log, `mkSub(l, r)`, `mkAdd(l, r)` and
`mkMul(l, r)` each issue exactly one engine call, to `Z3_mk_sub`, `Z3_mk_add`
and `Z3_mk_mul` respectively, with `(ctx, 2, [l.ast, r.ast])`, and wrap the
returned handle. -/
theorem mkSub_mkAdd_mkMul_count_array (Z3 : Engine) (self : Context) (l r : Expr)
    (log : List Call) :
    let operands : List Arg :=
      [Arg.val self.ctx, Arg.val (Val.num 2), Arg.array [l.ast, r.ast]]
    (Context.mkSub Z3 self l r).run log =
        Except.ok (⟨self.ctx, Z3.answer log ⟨"Z3_mk_sub", operands⟩⟩,
          log ++ [⟨"Z3_mk_sub", operands⟩]) ∧
    (Context.mkAdd Z3 self l r).run log =
        Except.ok (⟨self.ctx, Z3.answer log ⟨"Z3_mk_add", operands⟩⟩,
          log ++ [⟨"Z3_mk_add", operands⟩]) ∧
    (Context.mkMul Z3 self l r).run log =
        Except.ok (⟨self.ctx, Z3.answer log ⟨"Z3_mk_mul", operands⟩⟩,
          log ++ [⟨"Z3_mk_mul", operands⟩]) :=
  ⟨rfl, rfl, rfl⟩

/-- The first definition of `mkNot`, had it been the one exposed, would throw a
reference error for `arg` before reaching the engine, whatever it is called with. -/
theorem mkNot_line134_throws (Z3 : Engine) (self : Context) (a : Expr) (log : List Call) :
    (Context.mkNot_line134 Z3 self a).run log =
      Except.error (JSError.referenceError "arg") := by
  rfl

/-- C9: the `mkNot` an instance exposes is the second, one-parameter definition.
From any log, `mkNot(a)` raises no error, issues exactly one engine call,
`Z3_mk_not(ctx, a.ast)`, and returns the expression value pairing `ctx` with the
returned handle. -/
theorem mkNot_is_single_argument (Z3 : Engine) (self : Context) (a : Expr)
    (log : List Call) :
    Context.mkNot Z3 self a = Context.mkNot_line138 Z3 self a ∧
    (Context.mkNot Z3 self a).run log =
      Except.ok
        (⟨self.ctx, Z3.answer log ⟨"Z3_mk_not", [Arg.val self.ctx, Arg.val a.ast]⟩⟩,
          log ++ [⟨"Z3_mk_not", [Arg.val self.ctx, Arg.val a.ast]⟩]) :=
  ⟨rfl, rfl⟩

/-! ## Variables -/

/-- C10: `mkIntVar(n)`, `mkRealVar(n)` and `mkBoolVar(n)` are `mkVar(n, s)` with
`s` obtained from `mkIntSort()`, `mkRealSort()` and `mkBoolSort()`; `mkVar(n, s)`
is `mkConst(mkStringSymbol(n), s)`, and from any log it returns the pair of `ctx`
with the answer to `Z3_mk_const(ctx, sym, s)`, where `sym` is the answer to
`Z3_mk_string_symbol(ctx, n)` issued just before. -/
theorem typed_variables_are_compositions (Z3 : Engine) (self : Context) (n s : Val)
    (log : List Call) :
    let symCall : Call := ⟨"Z3_mk_string_symbol", [Arg.val self.ctx, Arg.val n]⟩
    let constCall : Call :=
      ⟨"Z3_mk_const", [Arg.val self.ctx, Arg.val (Z3.answer log symCall), Arg.val s]⟩
    Context.mkIntVar Z3 self n =
        (do let sort ← Context.mkIntSort Z3 self; Context.mkVar Z3 self n sort) ∧
    Context.mkRealVar Z3 self n =
        (do let sort ← Context.mkRealSort Z3 self; Context.mkVar Z3 self n sort) ∧
    Context.mkBoolVar Z3 self n =
        (do let sort ← Context.mkBoolSort Z3 self; Context.mkVar Z3 self n sort) ∧
    Context.mkVar Z3 self n s =
        (do let symb ← Context.mkStringSymbol Z3 self n; Context.mkConst Z3 self symb s) ∧
    (Context.mkVar Z3 self n s).run log =
        Except.ok (⟨self.ctx, Z3.answer (log ++ [symCall]) constCall⟩,
          log ++ [symCall, constCall]) := by
  intro symCall constCall
  refine ⟨rfl, rfl, rfl, rfl, ?_⟩
  simp [Context.mkVar, Context.mkStringSymbol, Expr.new, Engine.invoke, StateT.run, bind,
    StateT.bind, Except.bind, pure, StateT.pure, Except.pure, symCall, constCall]

/-- From any log, `mkIntVar(n)` issues three engine calls in this order:
`Z3_mk_int_sort(ctx)`, `Z3_mk_string_symbol(ctx, n)` and `Z3_mk_const(ctx, sym, sort)`
on the two handles just returned, and wraps the last result. -/
theorem mkIntVar_run (Z3 : Engine) (self : Context) (n : Val) (log : List Call) :
    let sortCall : Call := ⟨"Z3_mk_int_sort", [Arg.val self.ctx]⟩
    let symCall : Call := ⟨"Z3_mk_string_symbol", [Arg.val self.ctx, Arg.val n]⟩
    let constCall : Call :=
      ⟨"Z3_mk_const",
        [Arg.val self.ctx, Arg.val (Z3.answer (log ++ [sortCall]) symCall),
          Arg.val (Z3.answer log sortCall)]⟩
    (Context.mkIntVar Z3 self n).run log =
      Except.ok (⟨self.ctx, Z3.answer (log ++ [sortCall, symCall]) constCall⟩,
        log ++ [sortCall, symCall, constCall]) := by
  intro sortCall symCall constCall
  simp [Context.mkIntVar, Context.mkIntSort, Context.mkVar, Context.mkStringSymbol, Expr.new,
    Engine.invoke, StateT.run, bind, StateT.bind, Except.bind, pure, StateT.pure, Except.pure,
    sortCall, symCall, constCall]

end Z3JS
